import Mathlib

/-!
Verification development for the pattern-based UI interaction and recovery
engine of `iris/api/helpers/general.py`.

The Python module is shallowly embedded: pure computations (clipboard
parsing, preference-line formatting, command-list construction, region
geometry) become Lean functions over `List Char` / `Int`; the stateful
UI flows (`confirm_firefox_quit`, `address_crash_reporter`,
`change_preference`, `get_pref_value`, `get_support_info`) become
functions from an oracle of substrate outcomes (the results of the
`wait_vanish` / `exists` / `wait` probes and of the clipboard read) to the
trace of input-injection events that the flow dispatches, paired with the
value returned or the exception raised.
-/

namespace Iris

/-- Python whitespace predicate used by `str.strip()` (ASCII subset). -/
def isPySpace (c : Char) : Bool :=
  c == ' ' || c == '\t' || c == '\n' || c == '\x0b' || c == '\x0c' || c == '\r'

/-- Python `str.lstrip()` on a character list. -/
def pyLStrip (l : List Char) : List Char :=
  l.dropWhile isPySpace

/-- Python `str.rstrip()` on a character list. -/
def pyRStrip (l : List Char) : List Char :=
  (l.reverse.dropWhile isPySpace).reverse

/-- Python `str.strip()` on a character list. -/
def pyStrip (l : List Char) : List Char :=
  pyRStrip (pyLStrip l)

/-- Python `str.split(';')` on a character list (non-empty separator
semantics: `"" -> [""]`, separators at the ends produce empty fields). -/
def pySplitSemi : List Char → List (List Char)
  | [] => [[]]
  | c :: cs =>
    if c = ';' then
      [] :: pySplitSemi cs
    else
      match pySplitSemi cs with
      | [] => [[c]]
      | f :: r => (c :: f) :: r

/-- The exceptions the embedded code distinguishes: the raw Python
`IndexError` / `ValueError` and the module's own `APIHelperError`
carrying a human-readable message. -/
inductive PyError where
  | indexError
  | valueError
  | apiHelperError (msg : String)
  deriving DecidableEq

deriving instance DecidableEq for Except

/-- The expression `value.split(';')[1]`: splitting on the semicolon and
indexing at 1, which raises `IndexError` when there is no second field. -/
def split_index_1 (l : List Char) : Except PyError (List Char) :=
  match (pySplitSemi l).get? 1 with
  | some v => Except.ok v
  | none => Except.error PyError.indexError

/-- Input-injection and lifecycle events dispatched by the flows.
Targets of clicks and waits are the pattern image names from the source;
`sleep` records which delay constant was slept on. -/
inductive Event where
  | newTab
  | closeTab
  | selectLocationBar
  | paste (s : List Char)
  | typeKey (k : String)
  | typeText (s : List Char)
  | sleep (delay : String)
  | click (target : String)
  | editSelectAll
  | editCopy
  | waitVanish (target : String) (timeout : Nat) (vanished : Bool)
  | existsCheck (target : String) (timeout : Nat) (found : Bool)
  | waitFor (target : String) (timeout : Nat) (found : Bool)
  | quitFirefox
  | clickAuxWindowControl (button : String)
  | appFinish (code : Nat)
  | processLaunch
  deriving DecidableEq

/-- `copy_to_clipboard()`: select-all, copy, then return the clipboard
contents stripped of surrounding whitespace. -/
def copy_to_clipboard (clipboard : List Char) : List Event × List Char :=
  ([Event.editSelectAll, Event.editCopy], pyStrip clipboard)

/-- The shared opening protocol of `get_pref_value` and
`change_preference` up to and including the clipboard copy: open a tab,
navigate to about:config, search for the preference, advance focus, and
copy the row (the events of `copy_to_clipboard`). -/
def prefReadEvents (pref_name : List Char) : List Event :=
  [Event.newTab, Event.selectLocationBar,
   Event.paste ("about:config".data),
   Event.typeKey "ENTER", Event.sleep "UI_DELAY",
   Event.typeKey "SPACE", Event.sleep "UI_DELAY",
   Event.paste pref_name, Event.sleep "UI_DELAY_LONG",
   Event.typeKey "TAB", Event.sleep "UI_DELAY_LONG",
   Event.editSelectAll, Event.editCopy]

/-- `get_pref_value(pref_name)`, with the clipboard contents after the
copy step as the oracle.  The value is `copy_to_clipboard().split(';')[1]`;
an `IndexError` there is caught and re-raised as `APIHelperError`, and on
that path the flow raises before ever reaching `close_tab()`. -/
def get_pref_value (pref_name clipboard : List Char) :
    List Event × Except PyError (List Char) :=
  match split_index_1 (copy_to_clipboard clipboard).2 with
  | Except.ok value =>
      (prefReadEvents pref_name ++ [Event.closeTab], Except.ok value)
  | Except.error _ =>
      (prefReadEvents pref_name,
       Except.error (PyError.apiHelperError "Failed to retrieve preference value."))

/-- `change_preference(pref_name, value)`.  Oracles: the clipboard
contents after the copy step and whether the preference dialog pattern is
found within its 3-second wait.  The parse failure is re-raised by the
outer handler as the function's own `APIHelperError`; when the retrieved
value already equals the requested one the function returns `None`
immediately (without reaching `close_tab()`); otherwise it types, edits
the value if the dialog appears, and closes the tab. -/
def change_preference (pref_name value clipboard : List Char)
    (dialog_found : Bool) : List Event × Except PyError Unit :=
  match split_index_1 (copy_to_clipboard clipboard).2 with
  | Except.error _ =>
      (prefReadEvents pref_name,
       Except.error (PyError.apiHelperError "Could not set value to preference."))
  | Except.ok retrieved_value =>
      if retrieved_value = value then
        (prefReadEvents pref_name, Except.ok ())
      else
        (prefReadEvents pref_name ++
           [Event.typeKey "ENTER",
            Event.waitFor "preference_dialog_icon.png" 3 dialog_found] ++
           (if dialog_found then [Event.paste value, Event.typeKey "ENTER"] else []) ++
           [Event.closeTab],
         Except.ok ())

/-- `get_support_info()`.  Oracle: whether the copy/JSON-decode step in
the `try` block succeeds.  Either way the `finally` clause runs
`close_tab()` before the function exits. -/
def get_support_info (json_ok : Bool) : List Event × Except PyError Unit :=
  ([Event.newTab, Event.selectLocationBar,
    Event.paste ("about:support".data),
    Event.typeKey "ENTER", Event.sleep "UI_DELAY",
    Event.click "about_support_copy_raw_data_button.png",
    Event.sleep "UI_DELAY_LONG",
    Event.closeTab],
   if json_ok then Except.ok ()
   else Except.error (PyError.apiHelperError "Failed to retrieve support information value."))

/-- `address_crash_reporter()`.  Oracles: whether the 2-second `exists`
probe finds the crash-reporter pattern, and, when it does, whether the
reporter vanishes within the 20-second `wait_vanish`.  When the probe
fails the function returns at once; when the reporter refuses to vanish
the single fallback is `click_auxiliary_window_control('close')`, after
which the function returns. -/
def address_crash_reporter (reporter_found vanished : Bool) : List Event :=
  Event.existsCheck "crash_sorry.png" 2 reporter_found ::
  (if reporter_found then
    [Event.click "crash_sorry.png",
     Event.typeText ("Iris automation test crash.".data),
     Event.click "quit_firefox_button.png",
     Event.waitVanish "crash_sorry.png" 20 vanished] ++
    (if vanished then [] else [Event.clickAuxWindowControl "close"])
  else [])

/-- `confirm_firefox_quit(app)`.  Oracles: whether the home button
vanishes within each 10-second `wait_vanish` (`home_vanished_1` for the
initial wait, `home_vanished_2` for the single re-wait after escalation)
and the crash-reporter oracles passed to `address_crash_reporter` on
whichever success path is reached.  The escalation block types
ENTER and ESC, clicks the home button, re-issues `quit_firefox()`, and
re-waits once; a second timeout ends the run with `app.finish(code=1)`. -/
def confirm_firefox_quit (home_vanished_1 crash_found_1 crash_vanished_1
    home_vanished_2 crash_found_2 crash_vanished_2 : Bool) : List Event :=
  Event.waitVanish "home_button" 10 home_vanished_1 ::
  (if home_vanished_1 then
    address_crash_reporter crash_found_1 crash_vanished_1
  else
    [Event.typeKey "ENTER", Event.sleep "FX_DELAY",
     Event.typeKey "ESC", Event.sleep "FX_DELAY",
     Event.click "home_button", Event.quitFirefox,
     Event.waitVanish "home_button" 10 home_vanished_2] ++
    (if home_vanished_2 then
      address_crash_reporter crash_found_2 crash_vanished_2
    else
      [Event.appFinish 1]))

/-- A located pattern match: the top-left coordinate reported by `find`. -/
structure MatchInfo where
  x : Int
  y : Int
  deriving DecidableEq

/-- A screen region `Region(x, y, width, height)`. -/
structure Region where
  x : Int
  y : Int
  w : Int
  h : Int
  deriving DecidableEq

/-- `create_region_from_image(image)`.  Oracle: the result of `find`
(`none` models `FindError`, re-raised as `APIHelperError`).  On a match
the region is `Region(m.x - 285, m.y, 285, 655)`, the fixed hamburger
pop-up dimensions. -/
def create_region_from_image (found : Option MatchInfo) : Except PyError Region :=
  match found with
  | some m =>
      Except.ok { x := m.x - 285, y := m.y, w := 285, h := 655 }
  | none => Except.error (PyError.apiHelperError "Image not present.")

/-- Python `value.isdigit()` (ASCII model): true exactly for non-empty
all-digit strings. -/
def pyIsDigit (l : List Char) : Bool :=
  !l.isEmpty && l.all Char.isDigit

/-- The body of the loop in `write_profile_prefs`: one `user_pref` line,
with `true` / `false` / digit-only values written unquoted and every
other value quoted.  Each written line carries its trailing newline. -/
def formatPrefLine (name value : List Char) : List Char :=
  if value = "true".data ∨ value = "false".data ∨ pyIsDigit value then
    "user_pref(\"".data ++ name ++ "\", ".data ++ value ++ ");\n".data
  else
    "user_pref(\"".data ++ name ++ "\", \"".data ++ value ++ "\");\n".data

/-- One iteration of `write_profile_prefs`: `name, value = pref.split(';')`
(raising `ValueError` unless the split has exactly two fields) followed by
the formatted write. -/
def write_pref_line (pref : List Char) : Except PyError (List Char) :=
  match pySplitSemi pref with
  | [name, value] => Except.ok (formatPrefLine name value)
  | _ => Except.error PyError.valueError

/-- The loop of `write_profile_prefs`: write the line for each entry in
order, propagating the first exception. -/
def write_profile_lines : List (List Char) → Except PyError (List (List Char))
  | [] => Except.ok []
  | pref :: rest =>
    match write_pref_line pref with
    | Except.error e => Except.error e
    | Except.ok line =>
      match write_profile_lines rest with
      | Except.error e => Except.error e
      | Except.ok lines => Except.ok (line :: lines)

/-- `write_profile_prefs(test_case)` restricted to its preference list:
when the list is empty no file is opened (`none`); otherwise the `user.js`
contents are the written lines. -/
def write_profile_prefs (prefs : List (List Char)) :
    Except PyError (Option (List (List Char))) :=
  if prefs.isEmpty then Except.ok none
  else
    match write_profile_lines prefs with
    | Except.ok lines => Except.ok (some lines)
    | Except.error e => Except.error e

/-- `launch_firefox(path, profile, url, args)`: `ValueError` when
`profile is None` (raised before `subprocess.Popen` runs, so the trace is
empty); otherwise the command list is built and the process launched. -/
def launch_firefox (path : List Char) (profile : Option (List Char))
    (url : Option (List Char)) (args : Option (List (List Char))) :
    List Event × Except PyError (List (List Char)) :=
  let args := args.getD []
  match profile with
  | none => ([], Except.error PyError.valueError)
  | some p =>
    let cmd := [path, "-foreground".data, "-no-remote".data, "-profile".data, p]
      ++ args
    let cmd := match url with
      | some u => cmd ++ ["-new-tab".data, u]
      | none => cmd
    ([Event.processLaunch], Except.ok cmd)

/-- Event classifiers used to state the temporal claims. -/
def isQuitFirefox : Event → Bool
  | Event.quitFirefox => true
  | _ => false

def isHomeVanishWait : Event → Bool
  | Event.waitVanish t _ _ => t == "home_button"
  | _ => false

def isAppFinish : Event → Bool
  | Event.appFinish _ => true
  | _ => false

def isClickEvent : Event → Bool
  | Event.click _ => true
  | Event.clickAuxWindowControl _ => true
  | _ => false

def isKeystroke : Event → Bool
  | Event.typeKey _ => true
  | Event.typeText _ => true
  | _ => false

def isAuxClose : Event → Bool
  | Event.clickAuxWindowControl _ => true
  | _ => false

/-! Lemmas about the Python string primitives. -/

/-- Dropping a prefix by a predicate stops no later than the first
element the predicate rejects. -/
theorem dropWhile_append_cons_of_neg (p : Char → Bool) (x : Char)
    (hx : p x = false) (a r : List Char) :
    List.dropWhile p (a ++ x :: r) = List.dropWhile p a ++ x :: r := by
  induction a with
  | nil => simp [List.dropWhile_cons, hx]
  | cons c cs ih =>
    by_cases hc : p c
    · simp [List.dropWhile_cons, hc, ih]
    · simp [List.dropWhile_cons, hc]

/-- Left-stripping never crosses a semicolon. -/
theorem pyLStrip_append_semi (a r : List Char) :
    pyLStrip (a ++ ';' :: r) = pyLStrip a ++ ';' :: r :=
  dropWhile_append_cons_of_neg isPySpace ';' rfl a r

/-- Right-stripping never crosses a semicolon. -/
theorem pyRStrip_append_semi (a r : List Char) :
    pyRStrip (a ++ ';' :: r) = a ++ ';' :: pyRStrip r := by
  unfold pyRStrip
  have h1 : (a ++ ';' :: r).reverse = r.reverse ++ ';' :: a.reverse := by
    simp
  rw [h1, dropWhile_append_cons_of_neg isPySpace ';' rfl]
  simp

theorem not_mem_pyLStrip {a : List Char} (ha : ';' ∉ a) : ';' ∉ pyLStrip a :=
  fun h => ha ((List.dropWhile_sublist isPySpace).mem h)

theorem not_mem_pyRStrip {a : List Char} (ha : ';' ∉ a) : ';' ∉ pyRStrip a := by
  intro h
  unfold pyRStrip at h
  rw [List.mem_reverse] at h
  exact ha (List.mem_reverse.mp ((List.dropWhile_sublist isPySpace).mem h))

theorem not_mem_pyStrip {a : List Char} (ha : ';' ∉ a) : ';' ∉ pyStrip a :=
  not_mem_pyRStrip (not_mem_pyLStrip ha)

/-- A semicolon-free string splits into the single field it is. -/
theorem pySplitSemi_of_not_mem {a : List Char} (ha : ';' ∉ a) :
    pySplitSemi a = [a] := by
  induction a with
  | nil => rfl
  | cons c cs ih =>
    have hc : ¬ c = ';' := by
      intro h
      apply ha
      rw [h]
      exact List.mem_cons_self ';' cs
    have hcs : ';' ∉ cs := fun h => ha (List.mem_cons_of_mem c h)
    simp [pySplitSemi, hc, ih hcs]

/-- Splitting past the first semicolon after a semicolon-free field. -/
theorem pySplitSemi_append_semi {a : List Char} (r : List Char) (ha : ';' ∉ a) :
    pySplitSemi (a ++ ';' :: r) = a :: pySplitSemi r := by
  induction a with
  | nil => simp [pySplitSemi]
  | cons c cs ih =>
    have hc : ¬ c = ';' := by
      intro h
      apply ha
      rw [h]
      exact List.mem_cons_self ';' cs
    have hcs : ';' ∉ cs := fun h => ha (List.mem_cons_of_mem c h)
    simp [pySplitSemi, hc, ih hcs]

/-- Stripping a three-field record touches only the outer fields. -/
theorem pyStrip_three_fields (a b c : List Char) :
    pyStrip (a ++ ';' :: (b ++ ';' :: c))
      = pyLStrip a ++ ';' :: (b ++ ';' :: pyRStrip c) := by
  unfold pyStrip
  rw [pyLStrip_append_semi]
  have h2 : pyLStrip a ++ ';' :: (b ++ ';' :: c)
      = (pyLStrip a ++ ';' :: b) ++ ';' :: c := by
    simp
  rw [h2, pyRStrip_append_semi]
  simp

/-- On a stripped three-field record, `split(';')[1]` is the middle field. -/
theorem split_index_1_three_fields {a b c : List Char}
    (ha : ';' ∉ a) (hb : ';' ∉ b) (hc : ';' ∉ c) :
    split_index_1 (pyStrip (a ++ ';' :: (b ++ ';' :: c))) = Except.ok b := by
  unfold split_index_1
  rw [pyStrip_three_fields,
      pySplitSemi_append_semi _ (not_mem_pyLStrip ha),
      pySplitSemi_append_semi _ hb,
      pySplitSemi_of_not_mem (not_mem_pyRStrip hc)]
  rfl

/-- Without a semicolon the split has one field, so indexing at 1 raises
`IndexError`. -/
theorem split_index_1_no_semi {s : List Char} (hs : ';' ∉ s) :
    split_index_1 (pyStrip s) = Except.error PyError.indexError := by
  unfold split_index_1
  rw [pySplitSemi_of_not_mem (not_mem_pyStrip hs)]
  rfl

/-- `formatPrefLine` written with its literal-typing condition spelled
out: `true` / `false` / non-empty all-digit values are unquoted, all
others quoted. -/
theorem formatPrefLine_cases (name value : List Char) :
    formatPrefLine name value
      = if value = "true".data ∨ value = "false".data ∨
           (value ≠ [] ∧ ∀ ch ∈ value, ch.isDigit = true) then
          "user_pref(\"".data ++ name ++ "\", ".data ++ value ++ ");\n".data
        else
          "user_pref(\"".data ++ name ++ "\", \"".data ++ value ++ "\");\n".data := by
  have hdig : pyIsDigit value = true ↔ (value ≠ [] ∧ ∀ ch ∈ value, ch.isDigit = true) := by
    unfold pyIsDigit
    cases value with
    | nil => simp
    | cons c cs => simp [List.all_eq_true]
  unfold formatPrefLine
  exact if_congr (by rw [hdig]) rfl rfl

/-- The write loop of `write_profile_prefs` on well-formed
`name;value` entries: one formatted line per entry, no exception. -/
theorem write_profile_lines_ok (entries : List (List Char × List Char))
    (hsemi : ∀ nv ∈ entries, ';' ∉ nv.1 ∧ ';' ∉ nv.2) :
    write_profile_lines (entries.map fun nv => nv.1 ++ ';' :: nv.2)
      = Except.ok (entries.map fun nv => formatPrefLine nv.1 nv.2) := by
  induction entries with
  | nil => rfl
  | cons e es ih =>
    have he := hsemi e (List.mem_cons_self e es)
    have hline : write_pref_line (e.1 ++ ';' :: e.2)
        = Except.ok (formatPrefLine e.1 e.2) := by
      unfold write_pref_line
      rw [pySplitSemi_append_semi _ he.1, pySplitSemi_of_not_mem he.2]
    have ihe := ih (fun nv h => hsemi nv (List.mem_cons_of_mem e h))
    simp [write_profile_lines, hline, ihe]

/-! The claims. -/

/-- Claim C1: in `confirm_firefox_quit`, for every combination of
`wait_vanish` / crash-reporter outcomes, the escalation (whose re-issued
quit marks it in the trace) fires at most once — exactly once when the
home button fails to vanish on the first wait and never otherwise; the
escalation is followed by exactly one further bounded wait (two home-button
waits total); and when the anchor still has not vanished after the single
escalation the flow ends with `app.finish(code=1)` and nothing follows. -/
theorem confirm_firefox_quit_single_escalation :
    ∀ (v1 c1 w1 v2 c2 w2 : Bool),
      (confirm_firefox_quit v1 c1 w1 v2 c2 w2).countP isQuitFirefox ≤ 1 ∧
      (confirm_firefox_quit v1 c1 w1 v2 c2 w2).countP isQuitFirefox
        = (if v1 then 0 else 1) ∧
      (confirm_firefox_quit v1 c1 w1 v2 c2 w2).countP isHomeVanishWait
        = (if v1 then 1 else 2) ∧
      (v1 = false → v2 = false →
        (confirm_firefox_quit v1 c1 w1 v2 c2 w2).getLast?
          = some (Event.appFinish 1)) ∧
      (confirm_firefox_quit v1 c1 w1 v2 c2 w2).countP isAppFinish
        = (if v1 = false ∧ v2 = false then 1 else 0) := by
  decide

/-- Witness for C1: a run where the home button never vanishes performs
its one escalation and terminates with `app.finish(code=1)`. -/
theorem confirm_firefox_quit_single_escalation_witness :
    (confirm_firefox_quit false false false false false false).getLast?
      = some (Event.appFinish 1) :=
  (confirm_firefox_quit_single_escalation false false false false false false).2.2.2.1
    rfl rfl

/-- Claim C2: for a clipboard record `a;b;c` with semicolon-free fields,
the preference reader returns the middle field — both as the value
`get_pref_value` returns and as the retrieved value of the shared read
step `copy_to_clipboard().split(';')[1]` that `change_preference`
branches on. -/
theorem get_pref_value_second_field (pref a b c : List Char)
    (ha : ';' ∉ a) (hb : ';' ∉ b) (hc : ';' ∉ c) :
    (get_pref_value pref (a ++ ';' :: (b ++ ';' :: c))).2 = Except.ok b ∧
    split_index_1 (copy_to_clipboard (a ++ ';' :: (b ++ ';' :: c))).2
      = Except.ok b := by
  have h := split_index_1_three_fields ha hb hc
  constructor
  · unfold get_pref_value copy_to_clipboard
    rw [h]
  · unfold copy_to_clipboard
    exact h

/-- Witness for C2: `"name;value;extra"` parses to `"value"`. -/
theorem get_pref_value_second_field_witness :
    (get_pref_value ("browser.test.pref".data)
        ("name".data ++ ';' :: ("value".data ++ ';' :: "extra".data))).2
      = Except.ok ("value".data) :=
  (get_pref_value_second_field "browser.test.pref".data
    "name".data "value".data "extra".data (by decide) (by decide) (by decide)).1

/-- Claim C3: on clipboard text with no semicolon the reader raises the
module's format-level `APIHelperError` (the spec's `ProtocolFormatError`
role) with its fixed description, and the raw `IndexError` from the
indexing never escapes. -/
theorem get_pref_value_no_semicolon (pref s : List Char) (hs : ';' ∉ s) :
    (get_pref_value pref s).2
      = Except.error (PyError.apiHelperError "Failed to retrieve preference value.") ∧
    (get_pref_value pref s).2 ≠ Except.error PyError.indexError := by
  have h := split_index_1_no_semi hs
  constructor
  · unfold get_pref_value copy_to_clipboard
    rw [h]
  · unfold get_pref_value copy_to_clipboard
    rw [h]
    simp

/-- Witness for C3: a semicolon-free clipboard value raises the format
error. -/
theorem get_pref_value_no_semicolon_witness :
    (get_pref_value ("browser.test.pref".data) ("orphan".data)).2
      = Except.error (PyError.apiHelperError "Failed to retrieve preference value.") :=
  (get_pref_value_no_semicolon "browser.test.pref".data "orphan".data (by decide)).1

/-- Claim C4 (refuting evidence): the tab is NOT closed on every exit
path.  At a concrete parse-failure input `get_pref_value` opens a tab,
raises, and its trace contains no `closeTab`; at a concrete already-set
input `change_preference` returns with the tab still open; by contrast
`get_support_info` (whose cleanup is in a `finally`) closes its tab on
both outcomes. -/
theorem pref_reader_tab_leak :
    Event.newTab ∈ (get_pref_value ("browser.test.pref".data)
        ("no_semicolon_value".data)).1 ∧
    Event.closeTab ∉ (get_pref_value ("browser.test.pref".data)
        ("no_semicolon_value".data)).1 ∧
    (get_pref_value ("browser.test.pref".data) ("no_semicolon_value".data)).2
      = Except.error (PyError.apiHelperError "Failed to retrieve preference value.") ∧
    Event.newTab ∈ (change_preference ("b.t.p".data) ("42".data)
        ("b.t.p;42;x".data) false).1 ∧
    Event.closeTab ∉ (change_preference ("b.t.p".data) ("42".data)
        ("b.t.p;42;x".data) false).1 ∧
    (∀ b : Bool, Event.closeTab ∈ (get_support_info b).1) := by
  decide

/-- Claim C5: when the crash-reporter existence probe fails, the
dismissal flow performs zero clicks and zero keystrokes and its trace is
the probe alone. -/
theorem address_crash_reporter_absent_no_action :
    ∀ (w : Bool),
      address_crash_reporter false w
        = [Event.existsCheck "crash_sorry.png" 2 false] ∧
      (address_crash_reporter false w).countP isClickEvent = 0 ∧
      (address_crash_reporter false w).countP isKeystroke = 0 := by
  decide

/-- Claim C6: when the reporter is present the flow clicks it, types the
fixed annotation text, clicks the quit affordance, and waits for the
vanish; exactly one auxiliary-window-control close fires when the wait
fails and none when it succeeds, and in either case the flow terminates
there (the last trace event is the wait or that single fallback). -/
theorem address_crash_reporter_present_single_fallback :
    ∀ (w : Bool),
      address_crash_reporter true w
        = [Event.existsCheck "crash_sorry.png" 2 true,
           Event.click "crash_sorry.png",
           Event.typeText ("Iris automation test crash.".data),
           Event.click "quit_firefox_button.png",
           Event.waitVanish "crash_sorry.png" 20 w] ++
          (if w then [] else [Event.clickAuxWindowControl "close"]) ∧
      (address_crash_reporter true w).countP isAuxClose = (if w then 0 else 1) ∧
      (address_crash_reporter true w).getLast?
        = some (if w then Event.waitVanish "crash_sorry.png" 20 true
                else Event.clickAuxWindowControl "close") := by
  decide

/-- Claim C7: the region built by `create_region_from_image` has fixed
width 285 and height 655 for every match position; only its origin
depends on where the anchor matched. -/
theorem create_region_from_image_fixed_size :
    ∀ (m : MatchInfo),
      create_region_from_image (some m)
        = Except.ok { x := m.x - 285, y := m.y, w := 285, h := 655 } := by
  intro m
  rfl

/-- Claim C8: when the value read back equals the requested value,
`change_preference` returns successfully with its trace exactly the
read-protocol events — no typing, pasting, or clicking occurs after the
comparison. -/
theorem change_preference_already_set (pref value clipboard : List Char)
    (d : Bool)
    (h : split_index_1 (copy_to_clipboard clipboard).2 = Except.ok value) :
    (change_preference pref value clipboard d).1 = prefReadEvents pref ∧
    (change_preference pref value clipboard d).2 = Except.ok () := by
  constructor
  · unfold change_preference
    rw [h]
    simp
  · unfold change_preference
    rw [h]
    simp

/-- Witness for C8: reading back `42` when `42` was requested takes the
already-set branch. -/
theorem change_preference_already_set_witness :
    (change_preference ("browser.test.pref".data) ("42".data)
        ("browser.test.pref;42;default".data) false).1
      = prefReadEvents ("browser.test.pref".data) :=
  (change_preference_already_set "browser.test.pref".data "42".data
    "browser.test.pref;42;default".data false (by decide)).1

/-- Claim C9: on a non-empty list of `name;value` entries (fields
semicolon-free), `write_profile_prefs` writes exactly one `user_pref`
line per entry, unquoting exactly the values `true`, `false`, and
non-empty all-digit strings, and quoting every other value. -/
theorem write_profile_prefs_one_line_per_entry
    (entries : List (List Char × List Char))
    (hne : entries ≠ [])
    (hsemi : ∀ nv ∈ entries, ';' ∉ nv.1 ∧ ';' ∉ nv.2) :
    write_profile_prefs (entries.map fun nv => nv.1 ++ ';' :: nv.2)
      = Except.ok (some (entries.map fun nv =>
          if nv.2 = "true".data ∨ nv.2 = "false".data ∨
             (nv.2 ≠ [] ∧ ∀ ch ∈ nv.2, ch.isDigit = true) then
            "user_pref(\"".data ++ nv.1 ++ "\", ".data ++ nv.2 ++ ");\n".data
          else
            "user_pref(\"".data ++ nv.1 ++ "\", \"".data ++ nv.2 ++ "\");\n".data)) := by
  have hempty : (entries.map fun nv => nv.1 ++ ';' :: nv.2).isEmpty = false := by
    cases entries with
    | nil => exact absurd rfl hne
    | cons e es => rfl
  unfold write_profile_prefs
  rw [hempty, if_neg Bool.false_ne_true, write_profile_lines_ok entries hsemi]
  simp only [formatPrefLine_cases]

/-- Witness for C9: a digit value, a boolean value, and an ordinary
string value produce one line each with the expected quoting. -/
theorem write_profile_prefs_one_line_per_entry_witness :
    write_profile_prefs
        ([("browser.test.pref".data, "42".data),
          ("a.b".data, "true".data),
          ("c.d".data, "hello".data)].map fun nv => nv.1 ++ ';' :: nv.2)
      = Except.ok (some
          ([("browser.test.pref".data, "42".data),
            ("a.b".data, "true".data),
            ("c.d".data, "hello".data)].map fun nv =>
            if nv.2 = "true".data ∨ nv.2 = "false".data ∨
               (nv.2 ≠ [] ∧ ∀ ch ∈ nv.2, ch.isDigit = true) then
              "user_pref(\"".data ++ nv.1 ++ "\", ".data ++ nv.2 ++ ");\n".data
            else
              "user_pref(\"".data ++ nv.1 ++ "\", \"".data ++ nv.2 ++ "\");\n".data)) :=
  write_profile_prefs_one_line_per_entry _ (by decide) (by decide)

/-- Claim C10: `launch_firefox` raises `ValueError` with no process
launched whenever the profile is `None`; otherwise the command list is
`[path, -foreground, -no-remote, -profile, profile]`, the extra
arguments in order, and `-new-tab url` appended last exactly when a URL
is given. -/
theorem launch_firefox_cmd :
    ∀ (path p u : List Char) (extra : List (List Char)),
      launch_firefox path none (some u) (some extra)
        = ([], Except.error PyError.valueError) ∧
      launch_firefox path none none none
        = ([], Except.error PyError.valueError) ∧
      launch_firefox path (some p) (some u) (some extra)
        = ([Event.processLaunch],
           Except.ok (([path, "-foreground".data, "-no-remote".data,
             "-profile".data, p] ++ extra) ++ ["-new-tab".data, u])) ∧
      launch_firefox path (some p) none (some extra)
        = ([Event.processLaunch],
           Except.ok ([path, "-foreground".data, "-no-remote".data,
             "-profile".data, p] ++ extra)) ∧
      launch_firefox path (some p) (some u) none
        = ([Event.processLaunch],
           Except.ok ([path, "-foreground".data, "-no-remote".data,
             "-profile".data, p] ++ ["-new-tab".data, u])) := by
  intro path p u extra
  exact ⟨rfl, rfl, rfl, rfl, rfl⟩

end Iris
